import Mathlib

/-!
Verification of the report snapshot manager of pandas-profiling
(src/pandas_profiling/serialize_report.py): the SerializeReport mixin with
operations dumps, loads, dump and load.  The embedding below translates the
Python source into Lean: Python values that can appear in a decoded snapshot
become the inductive PyVal; the external codec (dill pickle) becomes the
inductive Bytes, whose pickled constructor carries the object graph that a
dumps call produced and whose garbage constructor stands for bytes on which
deserialization raises; the live report object plus the process-global active
configuration become the record ReportState; warnings become structured values
carrying the exact message strings of the source; and loads returns the final
state, the warnings emitted, and the Python exception that escaped, if any, so
that mutations persisting across an escaping exception are observable.
-/

namespace PandasProfiling

/-- Modelled from the spec: the external Config capability
(pandas_profiling.config is outside src/).  A configuration is an opaque bag of
settings, abstracted as a single value; settings value 0 is the freshly
constructed default. -/
structure Config where
  settings : Nat
deriving DecidableEq, Repr

/-- Modelled from the spec: the is_default query of the external Config
capability, true exactly on a freshly constructed default configuration. -/
def Config.is_default (c : Config) : Bool := c.settings == 0

/-- The freshly constructed default configuration. -/
def defaultConfig : Config := ⟨0⟩

/-- Modelled from the spec: the update merge of the external Config capability;
the loaded configuration settings take effect over the active ones. -/
def Config.update (_c other : Config) : Config := other

/-- Modelled from the spec: the external ReportTree payload
(pandas_profiling.report.presentation.core.Root is outside src/), opaque to
this subsystem. -/
structure Root where
  id : Nat
deriving DecidableEq, Repr

/-- A Python value as it can appear in a decoded snapshot field: None, a
string, a Config instance, a dict (the DescriptionSet mapping, possibly
nested), a Root instance, or any other object. -/
inductive PyVal where
  | vnone : PyVal
  | vstr : String → PyVal
  | vconfig : Config → PyVal
  | vdict : List (String × PyVal) → PyVal
  | vroot : Root → PyVal
  | vother : Nat → PyVal

/-- A Python dict with string keys, as the DescriptionSet payload is. -/
abbrev PyDict := List (String × PyVal)

/-- The byte strings the codec deals in: either the pickle of an object graph
(here the list of values that dumps serialized) or bytes on which the codec,
or the unpacking of its result into five values, fails with the given
message. -/
inductive Bytes where
  | pickled : List PyVal → Bytes
  | garbage : String → Bytes

/-- A Python exception, as raised by loads: the ValueError instances the source
raises itself, and the KeyError or TypeError that an indexing expression can
raise. -/
inductive PyError where
  | valueError : String → PyError
  | keyError : String → PyError
  | typeError : String → PyError
deriving DecidableEq, Repr

/-- The errors the source raises itself are all ValueError; a KeyError or
TypeError escaping from loads is outside that documented taxonomy. -/
def inDocumentedTaxonomy : PyError → Bool
  | .valueError _ => true
  | _ => false

/-- Modelled from the spec: the running library package version marker
(pandas_profiling.version is outside src/). -/
def __version__ : String := "2.9.0"

/-- The live report object: df_hash is the dataset-hash concept (in the full
repository the public df_hash is a property over the private field, defined in
profile_report.py which is outside src/; the spec data model holds the hash as
one concept, so it is one field here), df is the in-memory dataset used only
as a presence check, and config is the process-global active configuration. -/
structure ReportState where
  df_hash : Option String
  df : Option Unit
  description_set : Option PyDict
  report : Option Root
  title : Option String
  config : Config

/-- A freshly constructed target report: default config, no dataset reference
bound, every field unset. -/
def freshReport : ReportState :=
  { df_hash := none, df := none, description_set := none, report := none,
    title := none, config := defaultConfig }

/-- The warnings loads can emit, each carrying the data interpolated into the
message of the source. -/
inductive Warning where
  | descriptionSetNotLoaded : Warning
  | reportNotLoaded : Warning
  | versionMismatch : String → String → Warning
deriving DecidableEq, Repr

/-- The exact warning message strings of the source. -/
def Warning.message : Warning → String
  | .descriptionSetNotLoaded =>
      "The description set of current ProfileReport is not None. It won't be loaded."
  | .reportNotLoaded =>
      "The report of current ProfileReport is not None. It won't be loaded."
  | .versionMismatch cur loaded =>
      "The package version specified in the loaded data is not equal to the version installed. " ++
      "Currently running on pandas-profiling " ++ cur ++
      " , while loaded data is generated by pandas_profiling, " ++ loaded ++ "."

/-- The serialize call of dumps: pickle.dumps of the five-element list. -/
def pickleDumps (vs : List PyVal) : Bytes := .pickled vs

/-- The deserialize-and-unpack step of loads: pickle.loads of the data followed
by unpacking into five positional values; any failure carries a message. -/
def unpickle : Bytes → Except String (PyVal × PyVal × PyVal × PyVal × PyVal)
  | .garbage msg => .error msg
  | .pickled [a, b, c, d, e] => .ok (a, b, c, d, e)
  | .pickled vs =>
      .error (if vs.length < 5 then "not enough values to unpack (expected 5)"
              else "too many values to unpack (expected 5)")

/-- Shape check: None or a string. -/
def isOptStr : PyVal → Bool
  | .vnone => true
  | .vstr _ => true
  | _ => false

/-- Shape check: a Config instance. -/
def isConfig : PyVal → Bool
  | .vconfig _ => true
  | _ => false

/-- Shape check: None or a dict. -/
def isOptDict : PyVal → Bool
  | .vnone => true
  | .vdict _ => true
  | _ => false

/-- Shape check: None or a Root instance. -/
def isOptRoot : PyVal → Bool
  | .vroot _ => true
  | .vnone => true
  | _ => false

/-- The combined structural predicate of loads: the all(...) over the five
shape checks, in the order the source lists them. -/
def structValid (df_hash loaded_config loaded_description_set loaded_report
    loaded_title : PyVal) : Bool :=
  isOptStr df_hash && isOptStr loaded_title && isConfig loaded_config &&
    isOptDict loaded_description_set && isOptRoot loaded_report

/-- Read a None-or-string field as an optional string. -/
def asOptStr : PyVal → Option String
  | .vstr s => some s
  | _ => none

/-- Read a Config field as a Config. -/
def asConfig : PyVal → Config
  | .vconfig c => c
  | _ => defaultConfig

/-- Read a None-or-dict field as an optional dict. -/
def asOptDict : PyVal → Option PyDict
  | .vdict d => some d
  | _ => none

/-- Read a None-or-Root field as an optional Root. -/
def asOptRoot : PyVal → Option Root
  | .vroot r => some r
  | _ => none

/-- Inject an optional string field into a snapshot slot. -/
def optStrToPy : Option String → PyVal
  | none => .vnone
  | some s => .vstr s

/-- Inject an optional dict field into a snapshot slot. -/
def optDictToPy : Option PyDict → PyVal
  | none => .vnone
  | some d => .vdict d

/-- Inject an optional Root field into a snapshot slot. -/
def optRootToPy : Option Root → PyVal
  | none => .vnone
  | some r => .vroot r

/-- Python dict lookup on string keys. -/
def dictLookup : PyDict → String → Option PyVal
  | [], _ => none
  | (k, v) :: rest, key => if k = key then some v else dictLookup rest key

/-- Python subscripting v[key]: a KeyError on a dict without the key, a
TypeError on a value that is not a dict. -/
def pyIndex (v : PyVal) (key : String) : Except PyError PyVal :=
  match v with
  | .vdict d =>
      match dictLookup d key with
      | some x => .ok x
      | none => .error (.keyError key)
  | _ => .error (.typeError "object is not subscriptable")

/-- Python equality of an arbitrary value with a string: true only for the
equal string. -/
def pyEqStr (v : PyVal) (s : String) : Bool :=
  match v with
  | .vstr t => t == s
  | _ => false

/-- Python str() of a value, as interpolated into the version warning. -/
def pyStr : PyVal → String
  | .vnone => "None"
  | .vstr s => s
  | .vconfig _ => "<Config>"
  | .vdict _ => "<dict>"
  | .vroot _ => "<Root>"
  | .vother n => toString n

/-- The version advisory step of loads: when the loaded description set is not
None, index it at package, then at pandas_profiling_version, and warn when the
marker differs from the installed version; either indexing can raise. -/
def versionAdvisory (loaded_description_set : Option PyDict) :
    Except PyError (List Warning) :=
  match loaded_description_set with
  | none => .ok []
  | some d =>
      match pyIndex (.vdict d) "package" with
      | .error e => .error e
      | .ok pkg =>
          match pyIndex pkg "pandas_profiling_version" with
          | .error e => .error e
          | .ok ver =>
              if pyEqStr ver __version__ then .ok []
              else .ok [.versionMismatch __version__ (pyStr ver)]

/-- The version lookup on a present description set succeeds; vacuously true on
None. -/
def descOk : Option PyDict → Bool
  | none => true
  | some d =>
      match versionAdvisory (some d) with
      | .ok _ => true
      | .error _ => false

/-- The message of the ValueError wrapping a decode failure. -/
def decodeFailureMsg (msg : String) : String := "Failed to load data: " ++ msg

/-- The message of the ValueError on a structural shape failure. -/
def incompatibleFormatMsg : String :=
  "Failed to load data: file may be damaged or from an incompatible version"

/-- The message of the ValueError on a dataset identity mismatch. -/
def datasetMismatchMsg : String :=
  "DataFrame does not match with the current ProfileReport."

/-- The outcome of a loads call: the state of the target after the call (also
when an exception escaped mid-way, since Python mutations persist), the
warnings emitted, and the escaping exception if the call did not return. -/
structure LoadsResult where
  state : ReportState
  warnings : List Warning
  error : Option PyError

/-- dumps: pickle the five-element list of the dataset hash, the active
config, the description set, the report and the title, in that order. -/
def dumps (self : ReportState) : Bytes :=
  pickleDumps [optStrToPy self.df_hash, .vconfig self.config,
    optDictToPy self.description_set, optRootToPy self.report,
    optStrToPy self.title]

/-- The per-field merge of the description set: adopt the loaded value only
where the target field is None, otherwise keep the target value and warn. -/
def mergedDescription (self_ds loaded_ds : Option PyDict) :
    Option PyDict × List Warning :=
  match self_ds with
  | none => (loaded_ds, [])
  | some d0 => (some d0, [Warning.descriptionSetNotLoaded])

/-- The per-field merge of the report: adopt the loaded value only where the
target field is None, otherwise keep the target value and warn. -/
def mergedReport (self_rp loaded_rp : Option Root) :
    Option Root × List Warning :=
  match self_rp with
  | none => (loaded_rp, [])
  | some r0 => (some r0, [Warning.reportNotLoaded])

/-- The merge branch of loads, entered once the loaded snapshot passed the
compatibility decision: adopt description set and report only where the target
field is None, warning otherwise; overwrite the active config; run the version
advisory, whose indexing can raise after those mutations; finally set the
dataset hash and the title. -/
def mergeSnapshot (self : ReportState) (df_hash : Option String)
    (loaded_config : Config) (loaded_description_set : Option PyDict)
    (loaded_report : Option Root) (loaded_title : Option String) : LoadsResult :=
  let dsm := mergedDescription self.description_set loaded_description_set
  let rpm := mergedReport self.report loaded_report
  let st1 : ReportState :=
    { self with
      description_set := dsm.1
      report := rpm.1
      config := self.config.update loaded_config }
  match versionAdvisory loaded_description_set with
  | .error e => ⟨st1, dsm.2 ++ rpm.2, some e⟩
  | .ok vWarn =>
      ⟨{ st1 with df_hash := df_hash, title := loaded_title },
        dsm.2 ++ rpm.2 ++ vWarn, none⟩

/-- loads: decode, validate the shape in one combined predicate, decide
compatibility of the dataset identity, and on compatibility merge the snapshot
into the target; the ignore_config argument is accepted and never consulted,
as in the source. -/
def loads (self : ReportState) (data : Bytes) (ignore_config : Bool) :
    LoadsResult :=
  match unpickle data with
  | .error e => ⟨self, [], some (.valueError (decodeFailureMsg e))⟩
  | .ok (df_hash_v, loaded_config_v, loaded_description_set_v, loaded_report_v,
        loaded_title_v) =>
      if structValid df_hash_v loaded_config_v loaded_description_set_v
          loaded_report_v loaded_title_v then
        if asOptStr df_hash_v = self.df_hash ∨
            (self.config.is_default = true ∧ self.df = none) then
          mergeSnapshot self (asOptStr df_hash_v) (asConfig loaded_config_v)
            (asOptDict loaded_description_set_v) (asOptRoot loaded_report_v)
            (asOptStr loaded_title_v)
        else ⟨self, [], some (.valueError datasetMismatchMsg)⟩
      else ⟨self, [], some (.valueError incompatibleFormatMsg)⟩

/-- Split a character list at a separator. -/
def splitChar (sep : Char) : List Char → List (List Char)
  | [] => [[]]
  | c :: cs =>
      let rest := splitChar sep cs
      if c = sep then [] :: rest
      else
        match rest with
        | [] => [[c]]
        | r :: rs => (c :: r) :: rs

/-- Join character lists with a separator. -/
def joinChar (sep : Char) : List (List Char) → List Char
  | [] => []
  | [x] => x
  | x :: xs => x ++ sep :: joinChar sep xs

/-- The index of the last occurrence of a character. -/
def rfindIdx (c : Char) : List Char → Option Nat
  | [] => none
  | x :: xs =>
      match rfindIdx c xs with
      | some i => some (i + 1)
      | none => if x = c then some 0 else none

/-- Drop the dot suffix of a file name, when a dot occurs neither first nor
last, as pathlib computes a suffix. -/
def dropDotSuffix (cs : List Char) : List Char :=
  match rfindIdx '.' cs with
  | some i => if 0 < i ∧ i + 1 < cs.length then cs.take i else cs
  | none => cs

/-- pathlib with_suffix on a path string: replace the dot suffix of the final
path component with the given one. -/
def with_suffix (p : String) (suffix : String) : String :=
  let parts := splitChar '/' p.toList
  let name := parts.getLastD []
  String.mk (joinChar '/' (parts.dropLast ++ [dropDotSuffix name ++ suffix.toList]))

/-- dump: coerce the argument to a path, force the .pp extension, and write
the dumps bytes there; file writing is modelled as returning the destination
path together with the bytes written. -/
def dump (self : ReportState) (output_file : String) : String × Bytes :=
  (with_suffix output_file ".pp", dumps self)

/-- load: the file wrapper around loads; reading the file is modelled by
passing the bytes read. -/
def load (self : ReportState) (file_bytes : Bytes) (ignore_config : Bool) :
    LoadsResult :=
  loads self file_bytes ignore_config

/-! Helper lemmas about the embedding. -/

theorem asOptStr_optStrToPy (x : Option String) : asOptStr (optStrToPy x) = x := by
  cases x <;> rfl

theorem asOptDict_optDictToPy (x : Option PyDict) : asOptDict (optDictToPy x) = x := by
  cases x <;> rfl

theorem asOptRoot_optRootToPy (x : Option Root) : asOptRoot (optRootToPy x) = x := by
  cases x <;> rfl

theorem isOptStr_optStrToPy (x : Option String) : isOptStr (optStrToPy x) = true := by
  cases x <;> rfl

theorem isOptDict_optDictToPy (x : Option PyDict) : isOptDict (optDictToPy x) = true := by
  cases x <;> rfl

theorem isOptRoot_optRootToPy (x : Option Root) : isOptRoot (optRootToPy x) = true := by
  cases x <;> rfl

/-- On a decode failure loads raises the wrapping ValueError and leaves the
target untouched. -/
theorem loads_of_decode_error (self : ReportState) (data : Bytes) (ig : Bool)
    (msg : String) (hdec : unpickle data = Except.error msg) :
    loads self data ig = ⟨self, [], some (.valueError (decodeFailureMsg msg))⟩ := by
  unfold loads
  rw [hdec]

/-- On a shape failure loads raises the incompatible-format ValueError and
leaves the target untouched. -/
theorem loads_of_invalid (self : ReportState) (data : Bytes) (ig : Bool)
    (a b c d e : PyVal) (hdec : unpickle data = Except.ok (a, b, c, d, e))
    (hval : structValid a b c d e = false) :
    loads self data ig = ⟨self, [], some (.valueError incompatibleFormatMsg)⟩ := by
  unfold loads
  rw [hdec]
  simp [hval]

/-- On a valid, compatible snapshot loads reduces to the merge branch. -/
theorem loads_of_compat (self : ReportState) (data : Bytes) (ig : Bool)
    (a b c d e : PyVal) (hdec : unpickle data = Except.ok (a, b, c, d, e))
    (hval : structValid a b c d e = true)
    (hcompat : asOptStr a = self.df_hash ∨
      (self.config.is_default = true ∧ self.df = none)) :
    loads self data ig = mergeSnapshot self (asOptStr a) (asConfig b)
      (asOptDict c) (asOptRoot d) (asOptStr e) := by
  unfold loads
  rw [hdec]
  simp [hval, hcompat]

/-- On a valid but incompatible snapshot loads raises the dataset-mismatch
ValueError and leaves the target untouched. -/
theorem loads_of_mismatch (self : ReportState) (data : Bytes) (ig : Bool)
    (a b c d e : PyVal) (hdec : unpickle data = Except.ok (a, b, c, d, e))
    (hval : structValid a b c d e = true)
    (hne : asOptStr a ≠ self.df_hash)
    (hnd : self.config.is_default = false ∨ self.df ≠ none) :
    loads self data ig = ⟨self, [], some (.valueError datasetMismatchMsg)⟩ := by
  unfold loads
  rw [hdec]
  have hnc : ¬(asOptStr a = self.df_hash ∨
      (self.config.is_default = true ∧ self.df = none)) := by
    rintro (h | ⟨h1, h2⟩)
    · exact hne h
    · rcases hnd with h3 | h3
      · rw [h1] at h3; exact Bool.noConfusion h3
      · exact h3 h2
  simp [hval, hnc]

/-- A successful version advisory emits either nothing or a single version
mismatch warning. -/
theorem versionAdvisory_ok_shape (x : Option PyDict) (w : List Warning)
    (h : versionAdvisory x = Except.ok w) :
    w = [] ∨ ∃ s, w = [Warning.versionMismatch __version__ s] := by
  unfold versionAdvisory at h
  split at h
  · cases h
    exact Or.inl rfl
  · split at h
    · cases h
    · split at h
      · cases h
      · split at h
        · cases h
          exact Or.inl rfl
        · cases h
          exact Or.inr ⟨_, rfl⟩

theorem descWarning_not_in_ok_advisory (x : Option PyDict) (w : List Warning)
    (h : versionAdvisory x = Except.ok w) :
    Warning.descriptionSetNotLoaded ∉ w := by
  rcases versionAdvisory_ok_shape x w h with h1 | ⟨s, h1⟩ <;> subst h1 <;> simp

theorem reportWarning_not_in_ok_advisory (x : Option PyDict) (w : List Warning)
    (h : versionAdvisory x = Except.ok w) :
    Warning.reportNotLoaded ∉ w := by
  rcases versionAdvisory_ok_shape x w h with h1 | ⟨s, h1⟩ <;> subst h1 <;> simp

/-- When the description set passes descOk the version advisory returns
some list of warnings instead of raising. -/
theorem versionAdvisory_ok_of_descOk (x : Option PyDict)
    (h : descOk x = true) : ∃ w, versionAdvisory x = Except.ok w := by
  cases x with
  | none => exact ⟨[], rfl⟩
  | some d =>
      simp only [descOk] at h
      cases hva : versionAdvisory (some d) with
      | error e => rw [hva] at h; cases h
      | ok w => exact ⟨w, rfl⟩

/-! Claim theorems. -/

/-- C1: for every report state whose description set, when present, carries
the package-version marker, serializing with dumps and loading the bytes into
a freshly constructed target with default config and no dataset reference
reproduces the dataframe hash, title, description set and report of the
original. -/
theorem C1_round_trip (src : ReportState)
    (hdesc : descOk src.description_set = true) :
    (loads freshReport (dumps src) false).error = none ∧
    (loads freshReport (dumps src) false).state.df_hash = src.df_hash ∧
    (loads freshReport (dumps src) false).state.title = src.title ∧
    (loads freshReport (dumps src) false).state.description_set =
      src.description_set ∧
    (loads freshReport (dumps src) false).state.report = src.report := by
  obtain ⟨w, hva⟩ := versionAdvisory_ok_of_descOk _ hdesc
  have hdec : unpickle (dumps src) = Except.ok (optStrToPy src.df_hash,
      .vconfig src.config, optDictToPy src.description_set,
      optRootToPy src.report, optStrToPy src.title) := rfl
  have hval : structValid (optStrToPy src.df_hash) (.vconfig src.config)
      (optDictToPy src.description_set) (optRootToPy src.report)
      (optStrToPy src.title) = true := by
    simp [structValid, isOptStr_optStrToPy, isOptDict_optDictToPy,
      isOptRoot_optRootToPy, isConfig]
  rw [loads_of_compat freshReport (dumps src) false _ _ _ _ _ hdec hval
    (Or.inr ⟨rfl, rfl⟩)]
  unfold mergeSnapshot
  rw [asOptDict_optDictToPy]
  simp [mergedDescription, mergedReport, freshReport, hva, asOptStr_optStrToPy,
    asOptRoot_optRootToPy]

/-- A source report for the C1 witness run, with every field populated and a
description set carrying the version marker. -/
def roundTripSource : ReportState :=
  { df_hash := some "abc", df := some (),
    description_set :=
      some [("package", .vdict [("pandas_profiling_version", .vstr "2.9.0")])],
    report := some ⟨3⟩, title := some "Profiling Report", config := ⟨5⟩ }

theorem C1_round_trip_witness :
    descOk roundTripSource.description_set = true ∧
    ((loads freshReport (dumps roundTripSource) false).error = none ∧
      (loads freshReport (dumps roundTripSource) false).state.df_hash =
        roundTripSource.df_hash ∧
      (loads freshReport (dumps roundTripSource) false).state.title =
        roundTripSource.title ∧
      (loads freshReport (dumps roundTripSource) false).state.description_set =
        roundTripSource.description_set ∧
      (loads freshReport (dumps roundTripSource) false).state.report =
        roundTripSource.report) :=
  ⟨rfl, C1_round_trip roundTripSource rfl⟩

/-- C2: for every structurally valid snapshot whose dataframe hash differs
from the target's current hash, when the target's active config is not default
or the target has a dataset reference bound, loads fails with the
dataset-mismatch ValueError and every field of the target is unchanged. -/
theorem C2_identity_gate (self : ReportState) (data : Bytes) (ig : Bool)
    (a b c d e : PyVal)
    (hdec : unpickle data = Except.ok (a, b, c, d, e))
    (hval : structValid a b c d e = true)
    (hne : asOptStr a ≠ self.df_hash)
    (hnd : self.config.is_default = false ∨ self.df ≠ none) :
    loads self data ig =
      ⟨self, [], some (.valueError datasetMismatchMsg)⟩ :=
  loads_of_mismatch self data ig a b c d e hdec hval hne hnd

/-- The target of the C2 witness run: hash abc, a non-default config. -/
def mismatchTarget : ReportState :=
  { df_hash := some "abc", df := none, description_set := none, report := none,
    title := some "t0", config := ⟨1⟩ }

/-- The bytes of the C2 witness run: a valid snapshot with hash xyz. -/
def mismatchBytes : Bytes :=
  .pickled [.vstr "xyz", .vconfig ⟨1⟩, .vnone, .vnone, .vnone]

theorem C2_identity_gate_witness :
    unpickle mismatchBytes =
      Except.ok (.vstr "xyz", .vconfig ⟨1⟩, .vnone, .vnone, .vnone) ∧
    structValid (.vstr "xyz") (.vconfig ⟨1⟩) .vnone .vnone .vnone = true ∧
    asOptStr (.vstr "xyz") ≠ mismatchTarget.df_hash ∧
    (mismatchTarget.config.is_default = false ∨ mismatchTarget.df ≠ none) ∧
    loads mismatchTarget mismatchBytes false =
      ⟨mismatchTarget, [], some (.valueError datasetMismatchMsg)⟩ :=
  ⟨rfl, rfl, by decide, Or.inl rfl,
    C2_identity_gate mismatchTarget mismatchBytes false _ _ _ _ _ rfl rfl
      (by decide) (Or.inl rfl)⟩

/-- C3: for every input decoding into a five-tuple in which some field fails
its shape check, loads fails with the incompatible-format ValueError before
mutating any target field; the five shape checks form the one combined
predicate structValid. -/
theorem C3_shape_validation (self : ReportState) (data : Bytes) (ig : Bool)
    (a b c d e : PyVal)
    (hdec : unpickle data = Except.ok (a, b, c, d, e))
    (hval : structValid a b c d e = false) :
    loads self data ig =
      ⟨self, [], some (.valueError incompatibleFormatMsg)⟩ :=
  loads_of_invalid self data ig a b c d e hdec hval

/-- The bytes of the C3 witness run: the config slot holds None, not a Config
instance. -/
def invalidBytes : Bytes :=
  .pickled [.vstr "abc", .vnone, .vnone, .vnone, .vnone]

theorem C3_shape_validation_witness :
    unpickle invalidBytes =
      Except.ok (.vstr "abc", .vnone, .vnone, .vnone, .vnone) ∧
    structValid (.vstr "abc") .vnone .vnone .vnone .vnone = false ∧
    loads freshReport invalidBytes false =
      ⟨freshReport, [], some (.valueError incompatibleFormatMsg)⟩ :=
  ⟨rfl, rfl,
    C3_shape_validation freshReport invalidBytes false _ _ _ _ _ rfl rfl⟩

/-- C4: for every byte input on which deserialization or the unpacking into
five values fails, loads raises a single ValueError carrying the original
message, and the target is not mutated. -/
theorem C4_decode_failure (self : ReportState) (data : Bytes) (ig : Bool)
    (msg : String) (hdec : unpickle data = Except.error msg) :
    loads self data ig =
      ⟨self, [], some (.valueError (decodeFailureMsg msg))⟩ :=
  loads_of_decode_error self data ig msg hdec

theorem C4_decode_failure_witness :
    unpickle (Bytes.garbage "invalid load key") =
      Except.error "invalid load key" ∧
    loads freshReport (Bytes.garbage "invalid load key") false =
      ⟨freshReport, [],
        some (.valueError (decodeFailureMsg "invalid load key"))⟩ :=
  ⟨rfl, C4_decode_failure freshReport (Bytes.garbage "invalid load key") false
    "invalid load key" rfl⟩

/-- C7: the ignore_config argument has no effect: for every byte input and
every target state, loads with true and with false produce the identical
outcome, errors, warnings and final state included. -/
theorem C7_ignore_config_noop (self : ReportState) (data : Bytes) :
    loads self data true = loads self data false := rfl

/-- C8: dump writes the dumps bytes to the given path with its extension
replaced by .pp: the destination is with_suffix of the path, report becomes
report.pp, and report.json becomes report.pp as well. -/
theorem C8_dump_extension (self : ReportState) (p : String) :
    dump self p = (with_suffix p ".pp", dumps self) ∧
    dump self "report" = ("report.pp", dumps self) ∧
    dump self "report.json" = ("report.pp", dumps self) :=
  ⟨rfl, rfl, rfl⟩

/-- C5: on every compatible, structurally valid load, description set and
report are merged independently: a None target field adopts the loaded value,
a populated one is kept, and the warning naming the field is emitted exactly
when the field was kept. -/
theorem C5_per_field_merge (self : ReportState) (data : Bytes) (ig : Bool)
    (a b c d e : PyVal)
    (hdec : unpickle data = Except.ok (a, b, c, d, e))
    (hval : structValid a b c d e = true)
    (hcompat : asOptStr a = self.df_hash ∨
      (self.config.is_default = true ∧ self.df = none)) :
    (self.description_set = none →
      (loads self data ig).state.description_set = asOptDict c) ∧
    (self.description_set ≠ none →
      (loads self data ig).state.description_set = self.description_set) ∧
    ((Warning.descriptionSetNotLoaded ∈ (loads self data ig).warnings) ↔
      self.description_set ≠ none) ∧
    (self.report = none → (loads self data ig).state.report = asOptRoot d) ∧
    (self.report ≠ none → (loads self data ig).state.report = self.report) ∧
    ((Warning.reportNotLoaded ∈ (loads self data ig).warnings) ↔
      self.report ≠ none) := by
  rw [loads_of_compat self data ig a b c d e hdec hval hcompat]
  unfold mergeSnapshot
  cases hva : versionAdvisory (asOptDict c) with
  | error err =>
      cases hds : self.description_set <;> cases hrp : self.report <;>
        simp [mergedDescription, mergedReport, hds, hrp, hva]
  | ok w =>
      have hdw := descWarning_not_in_ok_advisory _ _ hva
      have hrw := reportWarning_not_in_ok_advisory _ _ hva
      cases hds : self.description_set <;> cases hrp : self.report <;>
        simp [mergedDescription, mergedReport, hds, hrp, hva, hdw, hrw]

/-- A target for the C5 witness run whose description set is populated while
its report is not, so that one field is kept with a warning while the other is
adopted in the same call. -/
def halfPopulatedTarget : ReportState :=
  { df_hash := some "h", df := some (),
    description_set := some [("k", .vnone)], report := none,
    title := none, config := ⟨2⟩ }

/-- The bytes of the C5 witness run: same hash as the target, a report
payload to adopt. -/
def halfLoadBytes : Bytes :=
  .pickled [.vstr "h", .vconfig ⟨3⟩, .vnone, .vroot ⟨7⟩, .vstr "t"]

theorem C5_per_field_merge_witness :
    unpickle halfLoadBytes =
      Except.ok (.vstr "h", .vconfig ⟨3⟩, .vnone, .vroot ⟨7⟩, .vstr "t") ∧
    structValid (.vstr "h") (.vconfig ⟨3⟩) .vnone (.vroot ⟨7⟩) (.vstr "t")
      = true ∧
    (asOptStr (.vstr "h") = halfPopulatedTarget.df_hash ∨
      (halfPopulatedTarget.config.is_default = true ∧
        halfPopulatedTarget.df = none)) ∧
    ((halfPopulatedTarget.description_set = none →
      (loads halfPopulatedTarget halfLoadBytes false).state.description_set =
        asOptDict .vnone) ∧
    (halfPopulatedTarget.description_set ≠ none →
      (loads halfPopulatedTarget halfLoadBytes false).state.description_set =
        halfPopulatedTarget.description_set) ∧
    ((Warning.descriptionSetNotLoaded ∈
        (loads halfPopulatedTarget halfLoadBytes false).warnings) ↔
      halfPopulatedTarget.description_set ≠ none) ∧
    (halfPopulatedTarget.report = none →
      (loads halfPopulatedTarget halfLoadBytes false).state.report =
        asOptRoot (.vroot ⟨7⟩)) ∧
    (halfPopulatedTarget.report ≠ none →
      (loads halfPopulatedTarget halfLoadBytes false).state.report =
        halfPopulatedTarget.report) ∧
    ((Warning.reportNotLoaded ∈
        (loads halfPopulatedTarget halfLoadBytes false).warnings) ↔
      halfPopulatedTarget.report ≠ none)) :=
  ⟨rfl, rfl, Or.inl rfl,
    C5_per_field_merge halfPopulatedTarget halfLoadBytes false _ _ _ _ _
      rfl rfl (Or.inl rfl)⟩

/-- A description set that is a mapping yet lacks the package key holding the
version marker. -/
def lacksMarkerDesc : PyDict := [("x", PyVal.vnone)]

/-- A compatible, structurally valid snapshot whose description set lacks the
version marker. -/
def lacksMarkerBytes : Bytes :=
  .pickled [.vstr "abc", .vconfig ⟨7⟩, .vdict lacksMarkerDesc, .vnone,
    .vstr "t"]

/-- C6 as stated is false: this compatible, structurally valid load leaves
the dataset-hash and title fields of the target at None instead of setting
them to the loaded values abc and t, because the version lookup raises a
KeyError first. -/
theorem C6_identity_update_counterexample :
    unpickle lacksMarkerBytes = Except.ok (.vstr "abc", .vconfig ⟨7⟩,
      .vdict lacksMarkerDesc, .vnone, .vstr "t") ∧
    structValid (.vstr "abc") (.vconfig ⟨7⟩) (.vdict lacksMarkerDesc) .vnone
      (.vstr "t") = true ∧
    (freshReport.config.is_default = true ∧ freshReport.df = none) ∧
    asOptStr (.vstr "abc") = some "abc" ∧
    asOptStr (.vstr "t") = some "t" ∧
    (loads freshReport lacksMarkerBytes false).state.df_hash = none ∧
    (loads freshReport lacksMarkerBytes false).state.title = none ∧
    (loads freshReport lacksMarkerBytes false).error =
      some (.keyError "package") :=
  ⟨rfl, rfl, ⟨rfl, rfl⟩, rfl, rfl, rfl, rfl, rfl⟩

/-- C6 amended: for every compatible, structurally valid load whose loaded
description set, when present, carries the package-version marker, the
dataset-hash and title fields of the target are set to the loaded values and
the call returns, also in runs where a field merge was skipped with a
warning. -/
theorem C6_identity_update (self : ReportState) (data : Bytes) (ig : Bool)
    (a b c d e : PyVal)
    (hdec : unpickle data = Except.ok (a, b, c, d, e))
    (hval : structValid a b c d e = true)
    (hcompat : asOptStr a = self.df_hash ∨
      (self.config.is_default = true ∧ self.df = none))
    (hmark : descOk (asOptDict c) = true) :
    (loads self data ig).state.df_hash = asOptStr a ∧
    (loads self data ig).state.title = asOptStr e ∧
    (loads self data ig).error = none := by
  obtain ⟨w, hva⟩ := versionAdvisory_ok_of_descOk _ hmark
  rw [loads_of_compat self data ig a b c d e hdec hval hcompat]
  unfold mergeSnapshot
  simp [hva]

/-- A target with every field populated, for the C6 witness run. -/
def populatedTarget : ReportState :=
  { df_hash := some "h", df := some (),
    description_set := some [("k", .vnone)], report := some ⟨1⟩,
    title := some "old", config := ⟨2⟩ }

/-- A compatible snapshot with a marker-carrying description set and title
new, for the C6 witness run. -/
def identityBytes : Bytes :=
  .pickled [.vstr "h", .vconfig ⟨9⟩,
    .vdict [("package", .vdict [("pandas_profiling_version", .vstr "2.9.0")])],
    .vroot ⟨2⟩, .vstr "new"]

theorem C6_identity_update_witness :
    unpickle identityBytes = Except.ok (.vstr "h", .vconfig ⟨9⟩,
      .vdict [("package",
        .vdict [("pandas_profiling_version", .vstr "2.9.0")])],
      .vroot ⟨2⟩, .vstr "new") ∧
    structValid (.vstr "h") (.vconfig ⟨9⟩)
      (.vdict [("package",
        .vdict [("pandas_profiling_version", .vstr "2.9.0")])])
      (.vroot ⟨2⟩) (.vstr "new") = true ∧
    asOptStr (.vstr "h") = populatedTarget.df_hash ∧
    descOk (asOptDict (.vdict [("package",
      .vdict [("pandas_profiling_version", .vstr "2.9.0")])])) = true ∧
    ((loads populatedTarget identityBytes false).state.df_hash =
      asOptStr (.vstr "h") ∧
    (loads populatedTarget identityBytes false).state.title =
      asOptStr (.vstr "new") ∧
    (loads populatedTarget identityBytes false).error = none) :=
  ⟨rfl, rfl, rfl, rfl,
    C6_identity_update populatedTarget identityBytes false _ _ _ _ _
      rfl rfl (Or.inl rfl) rfl⟩

/-- A description set carrying the installed version as its marker. -/
def currentMarkerDesc : PyDict :=
  [("package", PyVal.vdict [("pandas_profiling_version", PyVal.vstr "2.9.0")])]

/-- A description set carrying the stale marker 0.0.1. -/
def staleMarkerDesc : PyDict :=
  [("package", PyVal.vdict [("pandas_profiling_version", PyVal.vstr "0.0.1")])]

/-- A target whose description set is already populated with a
current-version description set. -/
def advisoryTarget : ReportState :=
  { df_hash := some "h", df := some (),
    description_set := some currentMarkerDesc, report := none,
    title := none, config := ⟨1⟩ }

/-- A compatible snapshot carrying a stale-version description set. -/
def advisoryBytes : Bytes :=
  .pickled [.vstr "h", .vconfig ⟨1⟩, .vdict staleMarkerDesc, .vnone, .vnone]

/-- C9 as stated is false: on this compatible, structurally valid load the
merged description set is present and its own marker equals the installed
version, so no version warning should be emitted, yet the code emits one,
because it inspects the loaded description set rather than the merged one. -/
theorem C9_version_advisory_counterexample :
    (loads advisoryTarget advisoryBytes false).error = none ∧
    (loads advisoryTarget advisoryBytes false).state.description_set =
      some currentMarkerDesc ∧
    versionAdvisory (some currentMarkerDesc) = Except.ok [] ∧
    __version__ = "2.9.0" ∧
    (loads advisoryTarget advisoryBytes false).warnings =
      [Warning.descriptionSetNotLoaded,
        Warning.versionMismatch "2.9.0" "0.0.1"] :=
  ⟨rfl, rfl, rfl, rfl, rfl⟩

/-- C9 amended: on every compatible, structurally valid load whose loaded
description set is present and whose marker lookup yields a string, the call
returns with the dataset hash and title set, and a warning naming the
installed and the loaded versions is emitted exactly when the marker of the
loaded — not the merged — description set differs from the installed
version. -/
theorem C9_version_advisory (self : ReportState) (data : Bytes) (ig : Bool)
    (a b c d e : PyVal) (d0 : PyDict) (pkg : PyVal) (s : String)
    (hdec : unpickle data = Except.ok (a, b, c, d, e))
    (hval : structValid a b c d e = true)
    (hcompat : asOptStr a = self.df_hash ∨
      (self.config.is_default = true ∧ self.df = none))
    (hld : asOptDict c = some d0)
    (hpkg : pyIndex (.vdict d0) "package" = Except.ok pkg)
    (hver : pyIndex pkg "pandas_profiling_version" = Except.ok (.vstr s)) :
    (loads self data ig).error = none ∧
    (loads self data ig).state.df_hash = asOptStr a ∧
    (loads self data ig).state.title = asOptStr e ∧
    ((Warning.versionMismatch __version__ s ∈ (loads self data ig).warnings)
      ↔ s ≠ __version__) := by
  have hva : versionAdvisory (asOptDict c) = Except.ok
      (if s == __version__ then []
       else [Warning.versionMismatch __version__ s]) := by
    rw [hld]
    simp only [versionAdvisory, hpkg, hver, pyEqStr, pyStr]
    split <;> rfl
  rw [loads_of_compat self data ig a b c d e hdec hval hcompat]
  unfold mergeSnapshot
  by_cases hs : s = __version__ <;>
    cases hds : self.description_set <;> cases hrp : self.report <;>
      simp [mergedDescription, mergedReport, hds, hrp, hva, hs]

/-- A compatible snapshot with a stale marker loaded into a fresh target, for
the C9 witness run. -/
def staleBytes : Bytes :=
  .pickled [.vstr "abc", .vconfig ⟨4⟩, .vdict staleMarkerDesc, .vnone,
    .vstr "t"]

theorem C9_version_advisory_witness :
    unpickle staleBytes = Except.ok (.vstr "abc", .vconfig ⟨4⟩,
      .vdict staleMarkerDesc, .vnone, .vstr "t") ∧
    structValid (.vstr "abc") (.vconfig ⟨4⟩) (.vdict staleMarkerDesc) .vnone
      (.vstr "t") = true ∧
    (freshReport.config.is_default = true ∧ freshReport.df = none) ∧
    asOptDict (.vdict staleMarkerDesc) = some staleMarkerDesc ∧
    pyIndex (.vdict staleMarkerDesc) "package" =
      Except.ok (.vdict [("pandas_profiling_version", PyVal.vstr "0.0.1")]) ∧
    pyIndex (.vdict [("pandas_profiling_version", PyVal.vstr "0.0.1")])
      "pandas_profiling_version" = Except.ok (.vstr "0.0.1") ∧
    ((loads freshReport staleBytes false).error = none ∧
      (loads freshReport staleBytes false).state.df_hash =
        asOptStr (.vstr "abc") ∧
      (loads freshReport staleBytes false).state.title =
        asOptStr (.vstr "t") ∧
      ((Warning.versionMismatch __version__ "0.0.1" ∈
          (loads freshReport staleBytes false).warnings) ↔
        "0.0.1" ≠ __version__)) :=
  ⟨rfl, rfl, ⟨rfl, rfl⟩, rfl, rfl, rfl,
    C9_version_advisory freshReport staleBytes false _ _ _ _ _ _ _ _
      rfl rfl (Or.inr ⟨rfl, rfl⟩) rfl rfl rfl⟩

/-- C10: a concrete input passing structural validation — a compatible
snapshot whose description set is a mapping without the package key — makes
the version lookup in loads raise a KeyError, an exception type outside the
ValueError taxonomy of the source, after the description set, report and
active config of the target have already been mutated and before the hash and
title are set. -/
theorem C10_version_lookup_escape :
    unpickle lacksMarkerBytes = Except.ok (.vstr "abc", .vconfig ⟨7⟩,
      .vdict lacksMarkerDesc, .vnone, .vstr "t") ∧
    structValid (.vstr "abc") (.vconfig ⟨7⟩) (.vdict lacksMarkerDesc) .vnone
      (.vstr "t") = true ∧
    (freshReport.config.is_default = true ∧ freshReport.df = none) ∧
    freshReport.description_set = none ∧
    freshReport.config = Config.mk 0 ∧
    (loads freshReport lacksMarkerBytes false).error =
      some (.keyError "package") ∧
    inDocumentedTaxonomy (.keyError "package") = false ∧
    (loads freshReport lacksMarkerBytes false).state.description_set =
      some lacksMarkerDesc ∧
    (loads freshReport lacksMarkerBytes false).state.config = Config.mk 7 ∧
    (loads freshReport lacksMarkerBytes false).state.df_hash = none ∧
    (loads freshReport lacksMarkerBytes false).state.title = none :=
  ⟨rfl, rfl, ⟨rfl, rfl⟩, rfl, rfl, rfl, rfl, rfl, rfl, rfl, rfl⟩

end PandasProfiling
